import Mathlib

/-!
Shallow embedding of the WebSchematics decoder and renderer.

The decoder (`src/webschematics.js`, and the second copy of the same module
shipped as an unnamed source file, called `Part001` below) turns an NBT tag
tree into a dense 3D grid of block descriptors.  The renderer
(`src/renderer.js`) groups blocks, applies per-block transforms and merges
per-instance geometries into batched buffers.

Modelling conventions:
* JS strings are Lean `String`s; the JS string operations used by the code
  (`indexOf`, `substring`, `split`, `startsWith`, `includes`) are modelled
  over the character list, following ECMAScript semantics.
* JS arrays are Lean `List`s; an out-of-range read (`undefined` in JS) is
  modelled by `Option` via `l[i]?`.
* JS numbers that the code treats as integers are `Int` (or `Nat` for loop
  counters and buffer indices); `x & 0xFF` is modelled through explicit
  32-bit truncation.
* Rotation angles are stored as exact quarter-turn counts: a rotation
  field value `q` stands for the angle `q * (pi/2)` (the source only ever
  assigns `Math.PI` and its halves, so this representation is exact).
-/

deriving instance DecidableEq for Except

namespace WebSchematics

/-- JS `String.prototype.indexOf` for a single character, on the character
list: index of the first occurrence, `none` when absent. -/
def indexOfCharAux (c : Char) : List Char → Option Nat
  | [] => none
  | a :: rest => if a = c then some 0 else (indexOfCharAux c rest).map (· + 1)

/-- JS `key.indexOf(c)`: first index of `c` in the string, `-1` when absent. -/
def idxOfChar (s : String) (c : Char) : Int :=
  match indexOfCharAux c s.data with
  | some i => (i : Int)
  | none => -1

/-- JS `String.prototype.substring(a, b)`: clamp both arguments to
`[0, length]`, swap them when out of order, and return the slice. -/
def jsSubstring (s : String) (a b : Int) : String :=
  let len : Int := (s.data.length : Int)
  let ia := min (max a 0) len
  let ib := min (max b 0) len
  let lo := min ia ib
  let hi := max ia ib
  String.mk ((s.data.drop lo.toNat).take (hi - lo).toNat)

/-- JS `String.prototype.split` with a one-character separator, on the
character list.  `"".split(",")` is `[""]`, and separators at the ends
produce empty fragments, as in ECMAScript. -/
def splitOnCharList (c : Char) : List Char → List (List Char)
  | [] => [[]]
  | a :: rest =>
    let r := splitOnCharList c rest
    if a = c then [] :: r
    else
      match r with
      | h :: t => (a :: h) :: t
      | [] => [[a]]

/-- JS `s.split(c)` for a one-character separator `c`. -/
def jsSplitOnChar (s : String) (c : Char) : List String :=
  (splitOnCharList c s.data).map String.mk

/-- JS `s.startsWith(p)`. -/
def jsStartsWith (s p : String) : Bool :=
  p.data.isPrefixOf s.data

/-- JS `s.substring(n)` (one-argument form, drop the first `n` characters). -/
def jsDrop (s : String) (n : Nat) : String :=
  String.mk (s.data.drop n)

/-- JS `ToInt32`: wrap an integer into `[-2^31, 2^31)`. -/
def jsToInt32 (x : Int) : Int :=
  (x + 2 ^ 31) % 2 ^ 32 - 2 ^ 31

/-- JS `x & 0xFF`: truncate to 32 bits, then keep the low 8 bits (the
result of the bitwise and is non-negative). -/
def jsAnd255 (x : Int) : Int :=
  jsToInt32 x % 256

/-- JS `a % b` for `b > 0`: the remainder truncated toward zero, so the
result carries the sign of `a`. -/
def jsRem (a b : Int) : Int :=
  if a < 0 then -((-a) % b) else a % b

/-- Resolved identity of a voxel, `{ name, properties }` as built by the
decoder.  `properties := none` models a JS object without a `properties`
field (or with `properties: undefined`). -/
structure BlockDescriptor where
  name : String
  properties : Option (List String)
deriving DecidableEq

/-- The air fallback object returned by `getBlockData` when no palette
entry matches (webschematics.js line 118). -/
def airDescriptor : BlockDescriptor :=
  { name := "minecraft:air", properties := none }

/-- Renderer line 97, `block.properties || []`: the property list the rest
of the program sees for a descriptor. -/
def effectiveProperties (b : BlockDescriptor) : List String :=
  b.properties.getD []

/-- Renderer line 84: a block is skipped by the grouping pass exactly when
its name is `minecraft:air`. -/
def isAir (b : BlockDescriptor) : Bool :=
  b.name == "minecraft:air"

/-- webschematics.js `getBlockData(palette, blockId)` (lines 102-121):
linear scan of the palette entries for the one whose numeric value equals
`blockId` (a strict JS `===`, hence no match when `blockId` is
`undefined`); a key with a bracket is split into name and comma-separated
properties, a key without one is returned whole with no `properties`
field; no match falls back to the air object. -/
def getBlockData (palette : List (String × Int)) (blockId : Option Int) :
    BlockDescriptor :=
  match palette.find? (fun kv => some kv.2 == blockId) with
  | some kv =>
    let key := kv.1
    if key.data.contains '[' then
      { name := jsSubstring key 0 (idxOfChar key '[')
        properties := some (jsSplitOnChar
          (jsSubstring key (idxOfChar key '[' + 1) (idxOfChar key ']')) ',') }
    else
      { name := key, properties := none }
  | none => airDescriptor

/-- Dense 3D voxel grid indexed `blocks[y][x][z]`. -/
abbrev Grid := List (List (List BlockDescriptor))

/-- Read grid cell `(y, x, z)`. -/
def gridGet (g : Grid) (y x z : Nat) : Option BlockDescriptor :=
  (g[y]?.bind fun row => row[x]?).bind fun col => col[z]?

/-- webschematics.js `getBlocksFromSchem` core loop (lines 147-161), the
same loop appears unchanged in the second copy of the module: iterate `y`
outer, `x` middle, `z` inner and resolve the id found at flat index
`x + z*width + y*width*length`.  (`getBlockData` never returns
`undefined`, so the `skippedBlocks` branch of the loop body is dead
code and the grid has an entry for every coordinate.) -/
def getBlocksFromSchem (w h l : Nat) (palette : List (String × Int))
    (blockData : List Int) : Grid :=
  (List.range h).map fun y =>
    (List.range w).map fun x =>
      (List.range l).map fun z =>
        getBlockData palette blockData[x + z * w + y * w * l]?

namespace Src

/-- webschematics.js `createLegacyBlockMap` (lines 227-296): the partial
id-to-name table of the named copy of the module. -/
def createLegacyBlockMap : List (Nat × String) := [
    (0, "minecraft:air"),
    (1, "minecraft:stone"),
    (2, "minecraft:grass_block"),
    (3, "minecraft:dirt"),
    (4, "minecraft:cobblestone"),
    (5, "minecraft:oak_planks"),
    (6, "minecraft:oak_sapling"),
    (7, "minecraft:bedrock"),
    (8, "minecraft:water"),
    (9, "minecraft:water"),
    (10, "minecraft:lava"),
    (11, "minecraft:lava"),
    (12, "minecraft:sand"),
    (13, "minecraft:gravel"),
    (14, "minecraft:gold_ore"),
    (15, "minecraft:iron_ore"),
    (16, "minecraft:coal_ore"),
    (17, "minecraft:oak_log"),
    (18, "minecraft:oak_leaves"),
    (20, "minecraft:glass"),
    (21, "minecraft:lapis_ore"),
    (22, "minecraft:lapis_block"),
    (24, "minecraft:sandstone"),
    (35, "minecraft:white_wool"),
    (41, "minecraft:gold_block"),
    (42, "minecraft:iron_block"),
    (43, "minecraft:stone_slab"),
    (44, "minecraft:stone_slab"),
    (45, "minecraft:bricks"),
    (46, "minecraft:tnt"),
    (47, "minecraft:bookshelf"),
    (48, "minecraft:mossy_cobblestone"),
    (49, "minecraft:obsidian"),
    (50, "minecraft:torch"),
    (51, "minecraft:fire"),
    (52, "minecraft:spawner"),
    (53, "minecraft:oak_stairs"),
    (54, "minecraft:chest"),
    (56, "minecraft:diamond_ore"),
    (57, "minecraft:diamond_block"),
    (58, "minecraft:crafting_table"),
    (59, "minecraft:wheat"),
    (60, "minecraft:farmland"),
    (61, "minecraft:furnace"),
    (64, "minecraft:oak_door"),
    (65, "minecraft:ladder"),
    (67, "minecraft:cobblestone_stairs"),
    (71, "minecraft:iron_door"),
    (73, "minecraft:redstone_ore"),
    (78, "minecraft:snow"),
    (79, "minecraft:ice"),
    (80, "minecraft:snow_block"),
    (81, "minecraft:cactus"),
    (82, "minecraft:clay"),
    (85, "minecraft:oak_fence"),
    (89, "minecraft:glowstone"),
    (95, "minecraft:white_stained_glass"),
    (98, "minecraft:stone_bricks"),
    (102, "minecraft:glass_pane"),
    (103, "minecraft:melon"),
    (126, "minecraft:oak_slab")
]

end Src

namespace Part001

/-- Second copy of the module, `createLegacyBlockMap` (lines 234-525): the
full 0-255 table (id 36 is not assigned there either). -/
def createLegacyBlockMap : List (Nat × String) := [
    (0, "minecraft:air"),
    (1, "minecraft:stone"),
    (2, "minecraft:grass_block"),
    (3, "minecraft:dirt"),
    (4, "minecraft:cobblestone"),
    (5, "minecraft:oak_planks"),
    (6, "minecraft:oak_sapling"),
    (7, "minecraft:bedrock"),
    (8, "minecraft:water"),
    (9, "minecraft:water"),
    (10, "minecraft:lava"),
    (11, "minecraft:lava"),
    (12, "minecraft:sand"),
    (13, "minecraft:gravel"),
    (14, "minecraft:gold_ore"),
    (15, "minecraft:iron_ore"),
    (16, "minecraft:coal_ore"),
    (17, "minecraft:oak_log"),
    (18, "minecraft:oak_leaves"),
    (19, "minecraft:sponge"),
    (20, "minecraft:glass"),
    (21, "minecraft:lapis_ore"),
    (22, "minecraft:lapis_block"),
    (23, "minecraft:dispenser"),
    (24, "minecraft:sandstone"),
    (25, "minecraft:note_block"),
    (26, "minecraft:red_bed"),
    (27, "minecraft:powered_rail"),
    (28, "minecraft:detector_rail"),
    (29, "minecraft:sticky_piston"),
    (30, "minecraft:cobweb"),
    (31, "minecraft:grass"),
    (32, "minecraft:dead_bush"),
    (33, "minecraft:piston"),
    (34, "minecraft:piston_head"),
    (35, "minecraft:white_wool"),
    (37, "minecraft:dandelion"),
    (38, "minecraft:poppy"),
    (39, "minecraft:brown_mushroom"),
    (40, "minecraft:red_mushroom"),
    (41, "minecraft:gold_block"),
    (42, "minecraft:iron_block"),
    (43, "minecraft:stone_slab"),
    (44, "minecraft:stone_slab"),
    (45, "minecraft:bricks"),
    (46, "minecraft:tnt"),
    (47, "minecraft:bookshelf"),
    (48, "minecraft:mossy_cobblestone"),
    (49, "minecraft:obsidian"),
    (50, "minecraft:torch"),
    (51, "minecraft:fire"),
    (52, "minecraft:spawner"),
    (53, "minecraft:oak_stairs"),
    (54, "minecraft:chest"),
    (55, "minecraft:redstone_wire"),
    (56, "minecraft:diamond_ore"),
    (57, "minecraft:diamond_block"),
    (58, "minecraft:crafting_table"),
    (59, "minecraft:wheat"),
    (60, "minecraft:farmland"),
    (61, "minecraft:furnace"),
    (62, "minecraft:furnace"),
    (63, "minecraft:oak_sign"),
    (64, "minecraft:oak_door"),
    (65, "minecraft:ladder"),
    (66, "minecraft:rail"),
    (67, "minecraft:cobblestone_stairs"),
    (68, "minecraft:oak_wall_sign"),
    (69, "minecraft:lever"),
    (70, "minecraft:stone_pressure_plate"),
    (71, "minecraft:iron_door"),
    (72, "minecraft:oak_pressure_plate"),
    (73, "minecraft:redstone_ore"),
    (74, "minecraft:redstone_ore"),
    (75, "minecraft:redstone_torch"),
    (76, "minecraft:redstone_torch"),
    (77, "minecraft:stone_button"),
    (78, "minecraft:snow"),
    (79, "minecraft:ice"),
    (80, "minecraft:snow_block"),
    (81, "minecraft:cactus"),
    (82, "minecraft:clay"),
    (83, "minecraft:sugar_cane"),
    (84, "minecraft:jukebox"),
    (85, "minecraft:oak_fence"),
    (86, "minecraft:carved_pumpkin"),
    (87, "minecraft:netherrack"),
    (88, "minecraft:soul_sand"),
    (89, "minecraft:glowstone"),
    (90, "minecraft:nether_portal"),
    (91, "minecraft:jack_o_lantern"),
    (92, "minecraft:cake"),
    (93, "minecraft:repeater"),
    (94, "minecraft:repeater"),
    (95, "minecraft:white_stained_glass"),
    (96, "minecraft:oak_trapdoor"),
    (97, "minecraft:infested_stone"),
    (98, "minecraft:stone_bricks"),
    (99, "minecraft:brown_mushroom_block"),
    (100, "minecraft:red_mushroom_block"),
    (101, "minecraft:iron_bars"),
    (102, "minecraft:glass_pane"),
    (103, "minecraft:melon"),
    (104, "minecraft:pumpkin_stem"),
    (105, "minecraft:melon_stem"),
    (106, "minecraft:vine"),
    (107, "minecraft:oak_fence_gate"),
    (108, "minecraft:brick_stairs"),
    (109, "minecraft:stone_brick_stairs"),
    (110, "minecraft:mycelium"),
    (111, "minecraft:lily_pad"),
    (112, "minecraft:nether_bricks"),
    (113, "minecraft:nether_brick_fence"),
    (114, "minecraft:nether_brick_stairs"),
    (115, "minecraft:nether_wart"),
    (116, "minecraft:enchanting_table"),
    (117, "minecraft:brewing_stand"),
    (118, "minecraft:cauldron"),
    (119, "minecraft:end_portal"),
    (120, "minecraft:end_portal_frame"),
    (121, "minecraft:end_stone"),
    (122, "minecraft:dragon_egg"),
    (123, "minecraft:redstone_lamp"),
    (124, "minecraft:redstone_lamp"),
    (125, "minecraft:oak_slab"),
    (126, "minecraft:oak_slab"),
    (127, "minecraft:cocoa"),
    (128, "minecraft:sandstone_stairs"),
    (129, "minecraft:emerald_ore"),
    (130, "minecraft:ender_chest"),
    (131, "minecraft:tripwire_hook"),
    (132, "minecraft:tripwire"),
    (133, "minecraft:emerald_block"),
    (134, "minecraft:spruce_stairs"),
    (135, "minecraft:birch_stairs"),
    (136, "minecraft:jungle_stairs"),
    (137, "minecraft:command_block"),
    (138, "minecraft:beacon"),
    (139, "minecraft:cobblestone_wall"),
    (140, "minecraft:flower_pot"),
    (141, "minecraft:carrots"),
    (142, "minecraft:potatoes"),
    (143, "minecraft:oak_button"),
    (144, "minecraft:skeleton_skull"),
    (145, "minecraft:anvil"),
    (146, "minecraft:trapped_chest"),
    (147, "minecraft:light_weighted_pressure_plate"),
    (148, "minecraft:heavy_weighted_pressure_plate"),
    (149, "minecraft:comparator"),
    (150, "minecraft:comparator"),
    (151, "minecraft:daylight_detector"),
    (152, "minecraft:redstone_block"),
    (153, "minecraft:quartz_ore"),
    (154, "minecraft:hopper"),
    (155, "minecraft:quartz_block"),
    (156, "minecraft:quartz_stairs"),
    (157, "minecraft:activator_rail"),
    (158, "minecraft:dropper"),
    (159, "minecraft:white_terracotta"),
    (160, "minecraft:white_stained_glass_pane"),
    (161, "minecraft:acacia_leaves"),
    (162, "minecraft:acacia_log"),
    (163, "minecraft:acacia_stairs"),
    (164, "minecraft:dark_oak_stairs"),
    (165, "minecraft:slime_block"),
    (166, "minecraft:barrier"),
    (167, "minecraft:iron_trapdoor"),
    (168, "minecraft:prismarine"),
    (169, "minecraft:sea_lantern"),
    (170, "minecraft:hay_block"),
    (171, "minecraft:white_carpet"),
    (172, "minecraft:terracotta"),
    (173, "minecraft:coal_block"),
    (174, "minecraft:packed_ice"),
    (175, "minecraft:sunflower"),
    (176, "minecraft:white_banner"),
    (177, "minecraft:white_wall_banner"),
    (178, "minecraft:daylight_detector"),
    (179, "minecraft:red_sandstone"),
    (180, "minecraft:red_sandstone_stairs"),
    (181, "minecraft:red_sandstone_slab"),
    (182, "minecraft:red_sandstone_slab"),
    (183, "minecraft:spruce_fence_gate"),
    (184, "minecraft:birch_fence_gate"),
    (185, "minecraft:jungle_fence_gate"),
    (186, "minecraft:dark_oak_fence_gate"),
    (187, "minecraft:acacia_fence_gate"),
    (188, "minecraft:spruce_fence"),
    (189, "minecraft:birch_fence"),
    (190, "minecraft:jungle_fence"),
    (191, "minecraft:dark_oak_fence"),
    (192, "minecraft:acacia_fence"),
    (193, "minecraft:spruce_door"),
    (194, "minecraft:birch_door"),
    (195, "minecraft:jungle_door"),
    (196, "minecraft:acacia_door"),
    (197, "minecraft:dark_oak_door"),
    (198, "minecraft:end_rod"),
    (199, "minecraft:chorus_plant"),
    (200, "minecraft:chorus_flower"),
    (201, "minecraft:purpur_block"),
    (202, "minecraft:purpur_pillar"),
    (203, "minecraft:purpur_stairs"),
    (204, "minecraft:purpur_slab"),
    (205, "minecraft:purpur_slab"),
    (206, "minecraft:end_stone_bricks"),
    (207, "minecraft:beetroots"),
    (208, "minecraft:grass_path"),
    (209, "minecraft:end_gateway"),
    (210, "minecraft:repeating_command_block"),
    (211, "minecraft:chain_command_block"),
    (212, "minecraft:frosted_ice"),
    (213, "minecraft:magma_block"),
    (214, "minecraft:nether_wart_block"),
    (215, "minecraft:red_nether_bricks"),
    (216, "minecraft:bone_block"),
    (217, "minecraft:structure_void"),
    (218, "minecraft:observer"),
    (219, "minecraft:white_shulker_box"),
    (220, "minecraft:orange_shulker_box"),
    (221, "minecraft:magenta_shulker_box"),
    (222, "minecraft:light_blue_shulker_box"),
    (223, "minecraft:yellow_shulker_box"),
    (224, "minecraft:lime_shulker_box"),
    (225, "minecraft:pink_shulker_box"),
    (226, "minecraft:gray_shulker_box"),
    (227, "minecraft:light_gray_shulker_box"),
    (228, "minecraft:cyan_shulker_box"),
    (229, "minecraft:purple_shulker_box"),
    (230, "minecraft:blue_shulker_box"),
    (231, "minecraft:brown_shulker_box"),
    (232, "minecraft:green_shulker_box"),
    (233, "minecraft:red_shulker_box"),
    (234, "minecraft:black_shulker_box"),
    (235, "minecraft:white_glazed_terracotta"),
    (236, "minecraft:orange_glazed_terracotta"),
    (237, "minecraft:magenta_glazed_terracotta"),
    (238, "minecraft:light_blue_glazed_terracotta"),
    (239, "minecraft:yellow_glazed_terracotta"),
    (240, "minecraft:lime_glazed_terracotta"),
    (241, "minecraft:pink_glazed_terracotta"),
    (242, "minecraft:gray_glazed_terracotta"),
    (243, "minecraft:light_gray_glazed_terracotta"),
    (244, "minecraft:cyan_glazed_terracotta"),
    (245, "minecraft:purple_glazed_terracotta"),
    (246, "minecraft:blue_glazed_terracotta"),
    (247, "minecraft:brown_glazed_terracotta"),
    (248, "minecraft:green_glazed_terracotta"),
    (249, "minecraft:red_glazed_terracotta"),
    (250, "minecraft:black_glazed_terracotta"),
    (251, "minecraft:concrete"),
    (252, "minecraft:concrete_powder"),
    (253, "minecraft:structure_block"),
    (254, "minecraft:structure_block"),
    (255, "minecraft:air")
]

end Part001


/-- JS `map[blockId]` on the legacy tables: the value stored under the
(non-negative) numeric key equal to `i`, `undefined` (`none`) otherwise. -/
def lookupLegacy (m : List (Nat × String)) (i : Int) : Option String :=
  (m.find? (fun kv => ((kv.1 : Int) == i))).map (·.2)

namespace Src

/-- Loop body of webschematics.js `getBlocksFromSchematic` (lines
197-214): the raw stored id is looked up directly, with no signed-byte
normalization; a missing table entry synthesizes
`minecraft:unknown_<id>`, and an out-of-range read (`undefined`) gives
`minecraft:unknown_undefined`.  `dataArray ? dataArray[index] : 0`
supplies the metadata value. -/
def legacyCell (blocksArray : List Int) (dataArray : Option (List Int))
    (index : Nat) : BlockDescriptor :=
  let blockId : Option Int := blocksArray[index]?
  let blockData : Option Int :=
    match dataArray with
    | some d => d[index]?
    | none => some 0
  let blockName : String :=
    match blockId with
    | some v => (lookupLegacy createLegacyBlockMap v).getD
        ("minecraft:unknown_" ++ toString v)
    | none => "minecraft:unknown_undefined"
  { name := blockName
    properties :=
      match blockData with
      | some d => if 0 < d then some ["data=" ++ toString d] else none
      | none => none }

/-- webschematics.js `getBlocksFromSchematic` (lines 169-223): same
`y`/`x`/`z` nesting and index formula as the palette variant. -/
def getBlocksFromSchematic (w h l : Nat) (blocksArray : List Int)
    (dataArray : Option (List Int)) : Grid :=
  (List.range h).map fun y =>
    (List.range w).map fun x =>
      (List.range l).map fun z =>
        legacyCell blocksArray dataArray (x + z * w + y * w * l)

end Src

/-- Second copy of the module, lines 199-205: `let blockId =
blocksArray[index]; if (blockId < 0) blockId += 256; blockId &= 0xFF`.
An out-of-range read gives `undefined`, for which `undefined < 0` is
false and `undefined & 0xFF` is `0` (`ToInt32(NaN) = 0`). -/
def normalizeLegacyId (raw : Option Int) : Int :=
  match raw with
  | none => 0
  | some v => jsAnd255 (if v < 0 then v + 256 else v)

namespace Part001

/-- Loop body of the second copy's `getBlocksFromSchematic` (lines
197-220): like `Src.legacyCell` but the raw id is first normalized by
`normalizeLegacyId`. -/
def legacyCell (blocksArray : List Int) (dataArray : Option (List Int))
    (index : Nat) : BlockDescriptor :=
  let blockId : Int := normalizeLegacyId blocksArray[index]?
  let blockData : Option Int :=
    match dataArray with
    | some d => d[index]?
    | none => some 0
  let blockName : String :=
    (lookupLegacy createLegacyBlockMap blockId).getD
      ("minecraft:unknown_" ++ toString blockId)
  { name := blockName
    properties :=
      match blockData with
      | some d => if 0 < d then some ["data=" ++ toString d] else none
      | none => none }

/-- Second copy's `getBlocksFromSchematic` (lines 169-230): same loop
shape and index formula, with signed-byte normalization in the body. -/
def getBlocksFromSchematic (w h l : Nat) (blocksArray : List Int)
    (dataArray : Option (List Int)) : Grid :=
  (List.range h).map fun y =>
    (List.range w).map fun x =>
      (List.range l).map fun z =>
        legacyCell blocksArray dataArray (x + z * w + y * w * l)

end Part001

/-- The fields of the decoded tag tree that `renderSchematic` reads.  A
`none` field models an absent key (or one whose `.value` is
`undefined`, which the source treats identically). -/
structure NbtRoot where
  Width : Option Int
  Height : Option Int
  Length : Option Int
  Palette : Option (List (String × Int))
  BlockData : Option (List Int)
  Blocks : Option (List Int)
  Data : Option (List Int)
deriving DecidableEq

/-- webschematics.js `getBlocksFromSchem` entry (lines 124-142): its own
checks that `Palette` and `BlockData` are present, then the grid build.
Both copies of the module contain this function unchanged. -/
def getBlocksFromSchemE (root : NbtRoot) (w h l : Nat) :
    Except String Grid :=
  match root.Palette with
  | none => .error "Invalid NBT structure: Palette field missing or invalid"
  | some palette =>
    match root.BlockData with
    | none => .error "Invalid NBT structure: BlockData field missing or invalid"
    | some blockData => .ok (getBlocksFromSchem w h l palette blockData)

/-- webschematics.js `getBlocksFromSchematic` entry (lines 176-184): the
check that `Blocks` is present, then the legacy grid build. -/
def getBlocksFromSchematicE (root : NbtRoot) (w h l : Nat) :
    Except String Grid :=
  match root.Blocks with
  | none => .error "Invalid NBT structure: Blocks field missing or invalid"
  | some blocksArray => .ok (Src.getBlocksFromSchematic w h l blocksArray root.Data)

/-- Decode portion of `renderSchematic` (webschematics.js lines 11-48):
dimension checks, then format detection.  `hasPalette` tests only the
presence of `Palette` (line 36), `hasBlocks` only `Blocks` (line 37);
the branch order is `hasPalette`, else `hasBlocks`, else the
unknown-format error.  Dimensions are JS numbers; the `for` loops run
`max(dim, 0)` iterations, modelled by `Int.toNat`. -/
def decodeBlocks (root : NbtRoot) : Except String Grid :=
  match root.Width with
  | none => .error "Invalid NBT structure: Width field missing or invalid"
  | some width =>
  match root.Height with
  | none => .error "Invalid NBT structure: Height field missing or invalid"
  | some height =>
  match root.Length with
  | none => .error "Invalid NBT structure: Length field missing or invalid"
  | some length =>
  if root.Palette.isSome then
    getBlocksFromSchemE root width.toNat height.toNat length.toNat
  else if root.Blocks.isSome then
    getBlocksFromSchematicE root width.toNat height.toNat length.toNat
  else
    .error "Unknown schematic format: missing both Palette/BlockData and Blocks fields"

/-- Position and rotation state of a `THREE.Mesh` as far as
`applyTransformations` touches it.  Rotation fields hold the exact
coefficient of pi (a fresh mesh has all fields `0`). -/
structure MeshState where
  posX : Rat
  posY : Rat
  posZ : Rat
  rotX : Int
  rotY : Int
  rotZ : Int
deriving DecidableEq

/-- renderer.js `applyTransformations(mesh, x, y, z, properties)` (lines
535-592) on a fresh mesh: set the position, then read the `half=`,
`facing=`, `type=` and `axis=` properties in that order.  Rotation
fields count quarter turns: `Math.PI` is `2`, `Math.PI / 2` is `1`,
`-Math.PI / 2` is `-1`.  The `!properties` guard of line 538 cannot
fire at the call site (the caller normalizes with `|| []`), so only the
emptiness test remains. -/
def applyTransformations (x y z : Rat) (properties : List String) : MeshState :=
  let m : MeshState :=
    { posX := x, posY := y, posZ := z, rotX := 0, rotY := 0, rotZ := 0 }
  if properties.isEmpty then m else
  let half := properties.find? (fun p => jsStartsWith p "half=")
  let upsideDown : Bool :=
    match half with
    | some s => jsDrop s 5 == "top"
    | none => false
  let m := if upsideDown then { m with rotX := 2 } else m
  let m :=
    match properties.find? (fun p => jsStartsWith p "facing=") with
    | some f =>
      let direction := jsDrop f 7
      if direction == "north" then
        { m with rotY := m.rotY + (if upsideDown then -1 else 1) }
      else if direction == "east" then
        { m with rotY := m.rotY + 0 }
      else if direction == "south" then
        { m with rotY := m.rotY + (if upsideDown then (1 : Int) else -1) }
      else if direction == "west" then
        { m with rotY := m.rotY + (if upsideDown then -2 else 2) }
      else m
    | none => m
  let m :=
    match properties.find? (fun p => jsStartsWith p "type=") with
    | some t => if jsDrop t 5 == "top" then { m with posY := m.posY + 1/2 } else m
    | none => m
  let m :=
    match properties.find? (fun p => jsStartsWith p "axis=") with
    | some a =>
      let direction := jsDrop a 5
      if direction == "x" then { m with rotZ := 1 }
      else if direction == "y" then { m with rotY := 0 }
      else if direction == "z" then { m with rotX := 1 }
      else m
    | none => m
  m

/-- A `THREE.BufferGeometry` as far as the merge code touches it:
optional position/normal/uv attributes (lists of vertex tuples; the
source keeps flat number arrays with item sizes 3/3/2, which group into
exactly these tuples) and an optional index buffer.  The merge code
never computes with a coordinate beyond adding the integer voxel offset
of `translateGeometry`, so coordinates are modelled as integers. -/
structure BufferGeometry where
  position : Option (List (Int × Int × Int))
  normal : Option (List (Int × Int × Int))
  uv : Option (List (Int × Int))
  index : Option (List Nat)
deriving DecidableEq

/-- Body of renderer.js `mergeTwoGeometries` (lines 388-473, the `try`
block): concatenate position/normal/uv buffers (position is always set
on the result; normal and uv only when non-empty), and combine index
buffers with `offset = pos1 ? pos1.count : 0` added to the second
geometry's entries.  When only the first geometry has an index it is
installed unchanged; when only the second has one, its offset copy is
installed. -/
def mergeTwoGeometries (geo1 geo2 : BufferGeometry) : BufferGeometry :=
  let positions := geo1.position.getD [] ++ geo2.position.getD []
  let normals := geo1.normal.getD [] ++ geo2.normal.getD []
  let uvs := geo1.uv.getD [] ++ geo2.uv.getD []
  let offset : Nat :=
    match geo1.position with
    | some p => p.length
    | none => 0
  { position := some positions
    normal := if normals.isEmpty then none else some normals
    uv := if uvs.isEmpty then none else some uvs
    index :=
      match geo1.index, geo2.index with
      | some i1, some i2 => some (i1 ++ i2.map (fun i => i + offset))
      | some i1, none => some i1
      | none, some i2 => some (i2.map (fun i => i + offset))
      | none, none => none }

/-- renderer.js `mergeTwoGeometries` with its `catch` (lines 474-477): a
runtime exception in the body makes the function return `geo1`
unchanged.  Nothing in the translated body can fail, so the hypothetical
exception is supplied as the oracle `failed`. -/
def mergeTwoGeometriesCaught (failed : BufferGeometry → BufferGeometry → Bool)
    (geo1 geo2 : BufferGeometry) : BufferGeometry :=
  if failed geo1 geo2 then geo1 else mergeTwoGeometries geo1 geo2

/-- renderer.js `translateGeometry` (lines 481-497): shift every vertex
of the position attribute; a geometry without one is returned as is. -/
def translateGeometry (geometry : BufferGeometry) (x y z : Int) :
    BufferGeometry :=
  match geometry.position with
  | none => geometry
  | some p =>
    { geometry with
      position := some (p.map fun v => (v.1 + x, v.2.1 + y, v.2.2 + z)) }

/-- A `THREE.Mesh` as far as the merge path touches it: a geometry and a
position (a fresh mesh sits at the origin; materials are outside the
model). -/
structure Mesh where
  geometry : BufferGeometry
  posX : Int
  posY : Int
  posZ : Int
deriving DecidableEq

/-- renderer.js `mergeGeometries` (lines 500-532): `null` for an empty
list, the translated single geometry for a singleton, otherwise the left
fold of the caught pairwise merge over the translated geometries.  The
outer `catch` returning `null` is unreachable in the model because the
caught pairwise merge never throws. -/
def mergeGeometries (failed : BufferGeometry → BufferGeometry → Bool)
    (meshes : List Mesh) : Option BufferGeometry :=
  match meshes with
  | [] => none
  | [mesh] => some (translateGeometry mesh.geometry mesh.posX mesh.posY mesh.posZ)
  | m0 :: rest =>
    some (rest.foldl
      (fun merged m =>
        mergeTwoGeometriesCaught failed merged
          (translateGeometry m.geometry m.posX m.posY m.posZ))
      (translateGeometry m0.geometry m0.posX m0.posY m0.posZ))

/-- Merged-group emission in `render` (renderer.js lines 228-249): when
`mergeGeometries` yields a mesh it alone is added to the scene (at the
origin); only when it yields `null` are the per-instance meshes added
individually. -/
def emitGroup (failed : BufferGeometry → BufferGeometry → Bool)
    (meshes : List Mesh) : List Mesh :=
  match mergeGeometries failed meshes with
  | some merged => [{ geometry := merged, posX := 0, posY := 0, posZ := 0 }]
  | none => meshes



/-! Concrete fixtures used by witness and counterexample statements. -/

/-- First single-triangle fixture (3 vertices, indices `[0, 1, 2]`). -/
def tri1 : BufferGeometry :=
  { position := some [(0, 0, 0), (1, 0, 0), (0, 1, 0)]
    normal := none
    uv := none
    index := some [0, 1, 2] }

/-- Second single-triangle fixture (3 vertices, indices `[0, 1, 2]`). -/
def tri2 : BufferGeometry :=
  { position := some [(0, 0, 1), (1, 0, 1), (0, 1, 1)]
    normal := none
    uv := none
    index := some [0, 1, 2] }

/-- The second triangle fixture without an index buffer. -/
def tri2plain : BufferGeometry :=
  { tri2 with index := none }

/-- Single-vertex mesh fixture at the origin. -/
def meshA : Mesh :=
  { geometry :=
      { position := some [(0, 0, 0)], normal := none, uv := none,
        index := none }
    posX := 0
    posY := 0
    posZ := 0 }

/-- Single-vertex mesh fixture whose vertex is `(5, 5, 5)`. -/
def meshB : Mesh :=
  { geometry :=
      { position := some [(5, 5, 5)], normal := none, uv := none,
        index := none }
    posX := 0
    posY := 0
    posZ := 0 }

/-! Helper lemmas shared by several claims. -/

/-- A cell read of the triply nested `range`/`map` loop shape shared by all
three grid builders. -/
theorem gridGet_build {w h l : Nat} (f : Nat → Nat → Nat → BlockDescriptor)
    {y x z : Nat} (hy : y < h) (hx : x < w) (hz : z < l) :
    gridGet ((List.range h).map fun y => (List.range w).map fun x =>
      (List.range l).map fun z => f y x z) y x z = some (f y x z) := by
  simp [gridGet, List.getElem?_map, List.getElem?_range hy,
    List.getElem?_range hx, List.getElem?_range hz]

/-- The first occurrence of `c` in `l ++ c :: rest` is at `l.length` when
`c` does not occur in `l`. -/
theorem indexOfCharAux_append (c : Char) (l rest : List Char) (h : c ∉ l) :
    indexOfCharAux c (l ++ c :: rest) = some l.length := by
  induction l with
  | nil => simp [indexOfCharAux]
  | cons a as ih =>
    have ha : ¬(a = c) := fun hac => h (hac ▸ List.mem_cons_self a as)
    have has : c ∉ as := fun hc => h (List.mem_cons_of_mem a hc)
    simp [indexOfCharAux, ha, ih has]

/-- `String.mk` undoes `String.data`. -/
theorem mk_data (s : String) : String.mk s.data = s := rfl

/-- `jsSubstring` on in-range, ordered arguments is plain drop-and-take. -/
theorem jsSubstring_of_le (s : String) (a b : Int) (h0 : 0 ≤ a) (hab : a ≤ b)
    (hb : b ≤ (s.data.length : Int)) :
    jsSubstring s a b
      = String.mk ((s.data.drop a.toNat).take (b.toNat - a.toNat)) := by
  unfold jsSubstring
  dsimp only
  have h1 : (a ⊔ 0) ⊓ ((s.data.length : Nat) : Int) = a := by omega
  have h2 : (b ⊔ 0) ⊓ ((s.data.length : Nat) : Int) = b := by omega
  rw [h1, h2]
  have h3 : a ⊓ b = a := by omega
  have h4 : a ⊔ b = b := by omega
  rw [h3, h4]
  have h5 : (b - a).toNat = b.toNat - a.toNat := by omega
  rw [h5]

/-! Claim C1 -/

/-- C1: for valid dimensions and any flat id array, every grid builder
stores at position `(y, x, z)` the descriptor resolved from flat index
`x + z*w + y*w*l` (palette variant and both copies of the legacy
variant), and conversely the cell found at the inverted coordinates of a
flat index `i` is the descriptor resolved from `flat[i]`, so the grid
recovers the flat array order. -/
theorem grid_builder_index_correspondence
    (w h l y x z i : Nat) (palette : List (String × Int))
    (flat : List Int) (dataArr : Option (List Int))
    (hy : y < h) (hx : x < w) (hz : z < l)
    (hw : 0 < w) (hl : 0 < l) (hi : i < w * h * l) :
    (gridGet (getBlocksFromSchem w h l palette flat) y x z
        = some (getBlockData palette flat[x + z * w + y * w * l]?))
    ∧ (gridGet (Src.getBlocksFromSchematic w h l flat dataArr) y x z
        = some (Src.legacyCell flat dataArr (x + z * w + y * w * l)))
    ∧ (gridGet (Part001.getBlocksFromSchematic w h l flat dataArr) y x z
        = some (Part001.legacyCell flat dataArr (x + z * w + y * w * l)))
    ∧ (gridGet (getBlocksFromSchem w h l palette flat)
          (i / (w * l)) (i % (w * l) % w) (i % (w * l) / w)
        = some (getBlockData palette flat[i]?)) := by
  have hwl : 0 < w * l := Nat.mul_pos hw hl
  have hx2 : i % (w * l) % w < w := Nat.mod_lt _ hw
  have hz2 : i % (w * l) / w < l := by
    refine (Nat.div_lt_iff_lt_mul hw).mpr ?_
    have hm : i % (w * l) < w * l := Nat.mod_lt _ hwl
    exact lt_of_lt_of_eq hm (Nat.mul_comm w l)
  have hy2 : i / (w * l) < h := by
    refine (Nat.div_lt_iff_lt_mul hwl).mpr ?_
    exact lt_of_lt_of_eq hi (by ring)
  have hidx : i % (w * l) % w + (i % (w * l) / w) * w + (i / (w * l)) * w * l
      = i := by
    have h1 := Nat.mod_add_div' (i % (w * l)) w
    have h2 := Nat.mod_add_div' i (w * l)
    calc i % (w * l) % w + (i % (w * l) / w) * w + (i / (w * l)) * w * l
        = (i % (w * l) % w + i % (w * l) / w * w) + i / (w * l) * (w * l) := by
          ring
      _ = i % (w * l) + i / (w * l) * (w * l) := by rw [h1]
      _ = i := h2
  refine ⟨gridGet_build _ hy hx hz, gridGet_build _ hy hx hz,
    gridGet_build _ hy hx hz, ?_⟩
  have hcell := gridGet_build
    (fun y x z => getBlockData palette flat[x + z * w + y * w * l]?)
    hy2 hx2 hz2
  dsimp only at hcell
  rw [hidx] at hcell
  exact hcell

/-- Witness for C1 at a concrete 2 x 2 x 2 input. -/
theorem grid_builder_index_correspondence_witness :
    (1 < 2 ∧ 0 < 2 ∧ 7 < 2 * 2 * 2)
    ∧ ((gridGet (getBlocksFromSchem 2 2 2 [("minecraft:stone", 0)]
          [0, 1, 2, 3, 4, 5, 6, 7]) 1 1 1
        = some (getBlockData [("minecraft:stone", 0)]
            ([0, 1, 2, 3, 4, 5, 6, 7] : List Int)[1 + 1 * 2 + 1 * 2 * 2]?))
    ∧ (gridGet (Src.getBlocksFromSchematic 2 2 2 [0, 1, 2, 3, 4, 5, 6, 7] none)
          1 1 1
        = some (Src.legacyCell [0, 1, 2, 3, 4, 5, 6, 7] none
            (1 + 1 * 2 + 1 * 2 * 2)))
    ∧ (gridGet (Part001.getBlocksFromSchematic 2 2 2 [0, 1, 2, 3, 4, 5, 6, 7]
          none) 1 1 1
        = some (Part001.legacyCell [0, 1, 2, 3, 4, 5, 6, 7] none
            (1 + 1 * 2 + 1 * 2 * 2)))
    ∧ (gridGet (getBlocksFromSchem 2 2 2 [("minecraft:stone", 0)]
          [0, 1, 2, 3, 4, 5, 6, 7])
          (7 / (2 * 2)) (7 % (2 * 2) % 2) (7 % (2 * 2) / 2)
        = some (getBlockData [("minecraft:stone", 0)]
            ([0, 1, 2, 3, 4, 5, 6, 7] : List Int)[7]?))) :=
  ⟨⟨by decide, by decide, by decide⟩,
    grid_builder_index_correspondence 2 2 2 1 1 1 7 [("minecraft:stone", 0)]
      [0, 1, 2, 3, 4, 5, 6, 7] none (by decide) (by decide) (by decide)
      (by decide) (by decide) (by decide)⟩

/-! Claim C5 -/

/-- C5: when the matching palette entry's key carries a bracketed state
suffix, the resolver returns the part before the bracket as the name and
the comma-split bracket contents as the property list; when the key has
no bracket, the whole key is the name and the descriptor carries no
properties, so the effective property list the renderer sees is empty. -/
theorem palette_key_parsing :
    (∀ (palette : List (String × Int)) (blockId : Option Int)
      (n body : String) (v : Int),
      palette.find? (fun kv => some kv.2 == blockId)
          = some (n ++ "[" ++ body ++ "]", v) →
      '[' ∉ n.data → ']' ∉ n.data → ']' ∉ body.data →
      getBlockData palette blockId
        = { name := n, properties := some (jsSplitOnChar body ',') })
    ∧ (∀ (palette : List (String × Int)) (blockId : Option Int)
      (key : String) (v : Int),
      palette.find? (fun kv => some kv.2 == blockId) = some (key, v) →
      '[' ∉ key.data →
      getBlockData palette blockId = { name := key, properties := none }
      ∧ effectiveProperties (getBlockData palette blockId) = []) := by
  constructor
  · intro palette blockId n body v hfind hn1 hn2 hb
    set key := n ++ "[" ++ body ++ "]" with hkey
    have hdata : key.data = n.data ++ '[' :: (body.data ++ [']']) := by
      simp [hkey, String.data_append]
    have hopen : indexOfCharAux '[' key.data = some n.data.length := by
      rw [hdata]
      exact indexOfCharAux_append '[' n.data (body.data ++ [']']) hn1
    have hdata2 : key.data = (n.data ++ '[' :: body.data) ++ ']' :: [] := by
      simp [hdata]
    have hclosemem : ']' ∉ n.data ++ '[' :: body.data := by
      intro hmem
      rcases List.mem_append.mp hmem with h | h
      · exact hn2 h
      · rcases List.mem_cons.mp h with h | h
        · exact absurd h.symm (by decide)
        · exact hb h
    have hclose : indexOfCharAux ']' key.data
        = some (n.data ++ '[' :: body.data).length := by
      rw [hdata2]
      exact indexOfCharAux_append ']' (n.data ++ '[' :: body.data) [] hclosemem
    have hlen : key.data.length = n.data.length + 1 + (body.data.length + 1) := by
      rw [hdata]; simp; omega
    have hcontains : key.data.contains '[' = true := by
      rw [hdata]
      simp
    have hname : jsSubstring key 0 (idxOfChar key '[') = n := by
      rw [idxOfChar, hopen]
      dsimp only
      rw [jsSubstring_of_le key 0 (n.data.length : Int) le_rfl (by omega)
        (by rw [hlen]; push_cast; omega)]
      have e1 : (0 : Int).toNat = 0 := rfl
      have e2 : ((n.data.length : Nat) : Int).toNat = n.data.length := by omega
      rw [e1, e2, hdata]
      rw [Nat.sub_zero, List.drop_zero, List.take_left]
    have hl2 : (n.data ++ '[' :: body.data).length
        = n.data.length + 1 + body.data.length := by
      simp
      omega
    have hprops : jsSubstring key (idxOfChar key '[' + 1) (idxOfChar key ']')
        = body := by
      rw [idxOfChar, idxOfChar, hopen, hclose]
      dsimp only
      rw [hl2]
      rw [jsSubstring_of_le key ((n.data.length : Int) + 1)
        ((n.data.length + 1 + body.data.length : Nat) : Int) (by omega)
        (by push_cast; omega) (by rw [hlen]; push_cast; omega)]
      have e1 : ((n.data.length : Int) + 1).toNat = n.data.length + 1 := by
        omega
      have e2 : ((n.data.length + 1 + body.data.length : Nat) : Int).toNat
          = n.data.length + 1 + body.data.length := by omega
      rw [e1, e2]
      have hdrop : key.data.drop (n.data.length + 1) = body.data ++ [']'] := by
        rw [hdata2]
        rw [show n.data.length + 1 = (n.data ++ ['[']).length by simp]
        rw [show (n.data ++ '[' :: body.data) ++ ']' :: []
            = (n.data ++ ['[']) ++ (body.data ++ [']']) by simp]
        exact List.drop_left _ _
      rw [hdrop]
      have htake : (body.data ++ [']']).take
          (n.data.length + 1 + body.data.length - (n.data.length + 1))
          = body.data := by
        rw [show n.data.length + 1 + body.data.length - (n.data.length + 1)
            = body.data.length by omega]
        exact List.take_left' rfl
      rw [htake]
    rw [getBlockData, hfind]
    simp only [hcontains, if_true]
    rw [hname, hprops]
  · intro palette blockId key v hfind hk
    have hcontains : key.data.contains '[' = false := by
      simp [List.contains_eq_any_beq]
      exact hk
    constructor
    · rw [getBlockData, hfind]
      dsimp only
      rw [hcontains]
      simp
    · rw [getBlockData, hfind]
      dsimp only
      rw [hcontains]
      simp [effectiveProperties]

/-- Witness for C5 at the two keys named by the specification. -/
theorem palette_key_parsing_witness :
    ([("minecraft:oak_stairs" ++ "[" ++ "facing=north,half=bottom" ++ "]",
        (3 : Int))].find?
        (fun kv => some kv.2 == some 3)
      = some ("minecraft:oak_stairs" ++ "[" ++ "facing=north,half=bottom"
        ++ "]", 3))
    ∧ getBlockData
        [("minecraft:oak_stairs" ++ "[" ++ "facing=north,half=bottom" ++ "]",
          3)] (some 3)
      = { name := "minecraft:oak_stairs",
          properties := some (jsSplitOnChar "facing=north,half=bottom" ',') }
    ∧ jsSplitOnChar "facing=north,half=bottom" ','
      = ["facing=north", "half=bottom"]
    ∧ getBlockData [("minecraft:stone", 0)] (some 0)
      = { name := "minecraft:stone", properties := none }
    ∧ effectiveProperties (getBlockData [("minecraft:stone", 0)] (some 0))
      = [] :=
  ⟨by decide,
    palette_key_parsing.1 _ _ "minecraft:oak_stairs" "facing=north,half=bottom"
      3 (by decide) (by decide) (by decide) (by decide),
    by decide,
    (palette_key_parsing.2 [("minecraft:stone", 0)] (some 0) "minecraft:stone"
      0 (by decide) (by decide)).1,
    (palette_key_parsing.2 [("minecraft:stone", 0)] (some 0) "minecraft:stone"
      0 (by decide) (by decide)).2⟩

/-! Claim C6 -/

/-- C6: a numeric block id matched by no palette entry resolves to the air
descriptor (never an error), and such a descriptor is exactly what the
renderer's grouping pass skips as air. -/
theorem unmatched_id_resolves_air (palette : List (String × Int)) (n : Int)
    (h : ∀ kv ∈ palette, kv.2 ≠ n) :
    getBlockData palette (some n) = airDescriptor
    ∧ isAir (getBlockData palette (some n)) = true := by
  have hf : palette.find? (fun kv => some kv.2 == some n) = none := by
    refine List.find?_eq_none.mpr ?_
    intro kv hkv
    simpa using h kv hkv
  refine ⟨by rw [getBlockData, hf], ?_⟩
  rw [getBlockData, hf]
  decide

/-- Witness for C6: id 7 is absent from a one-entry palette. -/
theorem unmatched_id_resolves_air_witness :
    (∀ kv ∈ [("minecraft:stone", (0 : Int))], kv.2 ≠ 7)
    ∧ getBlockData [("minecraft:stone", 0)] (some 7) = airDescriptor
    ∧ isAir (getBlockData [("minecraft:stone", 0)] (some 7)) = true :=
  ⟨by decide,
    (unmatched_id_resolves_air [("minecraft:stone", 0)] 7 (by decide)).1,
    (unmatched_id_resolves_air [("minecraft:stone", 0)] 7 (by decide)).2⟩



/-! Claim C2 -/

/-- C2 counterexample: a tree with a `Palette` field, no `BlockData` field
and a `Blocks` field is not decoded as the legacy variant; detection picks
the palette branch on `Palette` alone and the decode then fails on the
missing `BlockData`. -/
theorem format_detection_counterexample :
    decodeBlocks
        { Width := some 1, Height := some 1, Length := some 1,
          Palette := some [("minecraft:stone", 0)], BlockData := none,
          Blocks := some [0], Data := none }
      = .error "Invalid NBT structure: BlockData field missing or invalid"
    ∧ decodeBlocks
        { Width := some 1, Height := some 1, Length := some 1,
          Palette := some [("minecraft:stone", 0)], BlockData := none,
          Blocks := some [0], Data := none }
      ≠ .ok (Src.getBlocksFromSchematic 1 1 1 [0] none) :=
  ⟨by decide, by decide⟩

/-- C2 amended: detection selects the palette-based variant exactly when a
`Palette` field is present (whether or not `BlockData` is); a present
`Palette` with a missing `BlockData` fails with the missing-`BlockData`
error; the legacy variant is selected exactly when `Palette` is absent
and `Blocks` is present; with neither field the decode fails with the
unknown-format error. -/
theorem format_detection_amended (root : NbtRoot) (wi hgt li : Int)
    (hW : root.Width = some wi) (hH : root.Height = some hgt)
    (hL : root.Length = some li) :
    (∀ (palette : List (String × Int)) (blockData : List Int),
      root.Palette = some palette → root.BlockData = some blockData →
      decodeBlocks root
        = .ok (getBlocksFromSchem wi.toNat hgt.toNat li.toNat palette
            blockData))
    ∧ (∀ (palette : List (String × Int)),
      root.Palette = some palette → root.BlockData = none →
      decodeBlocks root
        = .error "Invalid NBT structure: BlockData field missing or invalid")
    ∧ (∀ (blocksArray : List Int),
      root.Palette = none → root.Blocks = some blocksArray →
      decodeBlocks root
        = .ok (Src.getBlocksFromSchematic wi.toNat hgt.toNat li.toNat
            blocksArray root.Data))
    ∧ (root.Palette = none → root.Blocks = none →
      decodeBlocks root
        = .error
          "Unknown schematic format: missing both Palette/BlockData and Blocks fields") := by
  refine ⟨?_, ?_, ?_, ?_⟩
  · intro palette blockData hp hbd
    simp [decodeBlocks, hW, hH, hL, hp, hbd, getBlocksFromSchemE]
  · intro palette hp hbd
    simp [decodeBlocks, hW, hH, hL, hp, hbd, getBlocksFromSchemE]
  · intro blocksArray hp hb
    simp [decodeBlocks, hW, hH, hL, hp, hb, getBlocksFromSchematicE]
  · intro hp hb
    simp [decodeBlocks, hW, hH, hL, hp, hb]

/-- Witness for C2 amended at a complete palette-variant tree. -/
theorem format_detection_amended_witness :
    (({ Width := some 1, Height := some 1, Length := some 1,
        Palette := some [("minecraft:stone", 0)], BlockData := some [0],
        Blocks := none, Data := none } : NbtRoot).Width = some 1)
    ∧ decodeBlocks
        { Width := some 1, Height := some 1, Length := some 1,
          Palette := some [("minecraft:stone", 0)], BlockData := some [0],
          Blocks := none, Data := none }
      = .ok (getBlocksFromSchem (1 : Int).toNat (1 : Int).toNat
          (1 : Int).toNat [("minecraft:stone", 0)] [0]) :=
  ⟨rfl,
    (format_detection_amended
      { Width := some 1, Height := some 1, Length := some 1,
        Palette := some [("minecraft:stone", 0)], BlockData := some [0],
        Blocks := none, Data := none } 1 1 1 rfl rfl rfl).1
      [("minecraft:stone", 0)] [0] rfl rfl⟩

/-! Claim C3 -/

/-- The palette resolver on an `undefined` id: no strict-equality match is
possible, so the air fallback is returned. -/
theorem getBlockData_none (palette : List (String × Int)) :
    getBlockData palette none = airDescriptor := by
  have hf : palette.find? (fun kv => some kv.2 == none) = none :=
    List.find?_eq_none.mpr (fun kv _ => by simp)
  rw [getBlockData, hf]

/-- C3 counterexample: a palette-variant tree whose `BlockData` array is
shorter than `width*height*length` decodes successfully into a full grid
of air cells; no `TruncatedData` error exists in the code. -/
theorem truncated_data_counterexample :
    decodeBlocks
        { Width := some 2, Height := some 1, Length := some 1,
          Palette := some [("minecraft:stone", 0)], BlockData := some [],
          Blocks := none, Data := none }
      = .ok [[[airDescriptor], [airDescriptor]]] := by decide

/-- C3 amended: an out-of-range read of the flat array does not fail; the
`undefined` it yields resolves to the air descriptor (in the palette
builder, and in the second copy's legacy builder via normalization to id
0), and the decode still returns a complete grid. -/
theorem truncated_reads_resolve_air
    (w h l y x z : Nat) (palette : List (String × Int)) (flat : List Int)
    (root : NbtRoot) (wi hgt li : Int)
    (hy : y < h) (hx : x < w) (hz : z < l)
    (hshort : flat.length ≤ x + z * w + y * w * l)
    (hW : root.Width = some wi) (hH : root.Height = some hgt)
    (hL : root.Length = some li) (hP : root.Palette = some palette)
    (hB : root.BlockData = some flat) :
    gridGet (getBlocksFromSchem w h l palette flat) y x z = some airDescriptor
    ∧ gridGet (Part001.getBlocksFromSchematic w h l flat none) y x z
        = some airDescriptor
    ∧ decodeBlocks root
        = .ok (getBlocksFromSchem wi.toNat hgt.toNat li.toNat palette flat) := by
  refine ⟨?_, ?_, ?_⟩
  · have hcell := gridGet_build
      (fun y x z => getBlockData palette flat[x + z * w + y * w * l]?)
      hy hx hz
    dsimp only at hcell
    rw [List.getElem?_eq_none hshort, getBlockData_none] at hcell
    exact hcell
  · have hcell := gridGet_build
      (fun y x z => Part001.legacyCell flat none (x + z * w + y * w * l))
      hy hx hz
    dsimp only at hcell
    rw [Part001.legacyCell] at hcell
    rw [List.getElem?_eq_none hshort] at hcell
    exact hcell.trans (by decide)
  · simp [decodeBlocks, hW, hH, hL, hP, hB, getBlocksFromSchemE]

/-- Witness for C3 amended: a 2 x 1 x 1 grid with an empty flat array. -/
theorem truncated_reads_resolve_air_witness :
    (1 < 2 ∧ ([] : List Int).length ≤ 1 + 0 * 2 + 0 * 2 * 1)
    ∧ gridGet (getBlocksFromSchem 2 1 1 [("minecraft:stone", 0)] []) 0 1 0
        = some airDescriptor
    ∧ gridGet (Part001.getBlocksFromSchematic 2 1 1 [] none) 0 1 0
        = some airDescriptor
    ∧ decodeBlocks
        { Width := some 2, Height := some 1, Length := some 1,
          Palette := some [("minecraft:stone", 0)], BlockData := some [],
          Blocks := none, Data := none }
      = .ok (getBlocksFromSchem (2 : Int).toNat (1 : Int).toNat
          (1 : Int).toNat [("minecraft:stone", 0)] []) :=
  ⟨⟨by decide, by decide⟩,
    truncated_reads_resolve_air 2 1 1 0 1 0 [("minecraft:stone", 0)] []
      { Width := some 2, Height := some 1, Length := some 1,
        Palette := some [("minecraft:stone", 0)], BlockData := some [],
        Blocks := none, Data := none } 2 1 1
      (by decide) (by decide) (by decide) (by decide) rfl rfl rfl rfl rfl⟩

/-! Claim C4 -/

/-- C4 counterexample: the named copy's legacy decoder does no signed-byte
normalization; raw id `-1` is looked up directly, misses the table, and
produces `minecraft:unknown_-1` instead of the id-255 lookup that the
normalization formula would give. -/
theorem legacy_normalization_counterexample :
    gridGet (Src.getBlocksFromSchematic 1 1 1 [-1] none) 0 0 0
      = some { name := "minecraft:unknown_-1", properties := none }
    ∧ (lookupLegacy Src.createLegacyBlockMap
          (normalizeLegacyId (some (-1)))).getD
        ("minecraft:unknown_" ++ toString (normalizeLegacyId (some (-1))))
      = "minecraft:unknown_255"
    ∧ "minecraft:unknown_-1" ≠ "minecraft:unknown_255" :=
  ⟨by decide, by decide, by decide⟩

/-- C4 amended: only the second copy's legacy decoder normalizes the raw
stored id, and its `+256`-then-`& 0xFF` conversion agrees with the
formula `((raw % 256) + 256) % 256` under the JS truncated remainder for
every integer; in particular raw `-1` normalizes to `255` (which that
copy's table maps to air).  The named copy's decoder looks the raw id up
unnormalized. -/
theorem legacy_normalization_amended :
    (∀ v : Int, normalizeLegacyId (some v) = jsRem (jsRem v 256 + 256) 256)
    ∧ normalizeLegacyId (some (-1)) = 255
    ∧ gridGet (Part001.getBlocksFromSchematic 1 1 1 [-1] none) 0 0 0
        = some airDescriptor
    ∧ gridGet (Src.getBlocksFromSchematic 1 1 1 [-1] none) 0 0 0
        = some { name := "minecraft:unknown_-1", properties := none } := by
  refine ⟨?_, by decide, by decide, by decide⟩
  intro v
  unfold normalizeLegacyId jsAnd255 jsToInt32 jsRem
  dsimp only
  have hpow31 : (2 : Int) ^ 31 = 2147483648 := by norm_num
  have hpow32 : (2 : Int) ^ 32 = 4294967296 := by norm_num
  rw [hpow31, hpow32]
  split_ifs <;> omega

/-! Claim C7 -/

/-- C7 counterexample: `half=top` alone produces no rotation about the
vertical axis at all (the code's 180-degree turn is assigned to the x
axis); measured in quarter turns, `rotY` stays `0` rather than the
claimed half turn, while `rotX` receives the half turn. -/
theorem half_top_rotation_counterexample :
    (applyTransformations 0 0 0 ["half=top"]).rotY ≠ 2
    ∧ (applyTransformations 0 0 0 ["half=top"]).rotY ≠ -2
    ∧ (applyTransformations 0 0 0 ["half=top"]).rotX = 2 :=
  ⟨by decide, by decide, by decide⟩

/-- C7 amended: `half=top` sets a 180-degree rotation about the horizontal
x axis (two quarter turns) and leaves the vertical-axis rotation alone;
`facing` adds a fixed vertical-axis angle per direction whose sign flips
when `half=top` is present (north 1, east 0, south -1, west 2 quarter
turns); the composition for `["facing=north", "half=top"]` is a vertical
rotation of -1 quarter turn (i.e. -pi/2) together with the x-axis half
turn. -/
theorem transform_rotation_amended :
    ((applyTransformations 0 0 0 ["half=top"]).rotX = 2
      ∧ (applyTransformations 0 0 0 ["half=top"]).rotY = 0)
    ∧ ((applyTransformations 0 0 0 ["facing=north"]).rotY = 1
      ∧ (applyTransformations 0 0 0 ["facing=north"]).rotX = 0)
    ∧ ((applyTransformations 0 0 0 ["facing=north", "half=top"]).rotY = -1
      ∧ (applyTransformations 0 0 0 ["facing=north", "half=top"]).rotX = 2)
    ∧ ((applyTransformations 0 0 0 ["facing=east"]).rotY = 0
      ∧ (applyTransformations 0 0 0 ["facing=east", "half=top"]).rotY = 0)
    ∧ ((applyTransformations 0 0 0 ["facing=south"]).rotY = -1
      ∧ (applyTransformations 0 0 0 ["facing=south", "half=top"]).rotY = 1)
    ∧ ((applyTransformations 0 0 0 ["facing=west"]).rotY = 2
      ∧ (applyTransformations 0 0 0 ["facing=west", "half=top"]).rotY = -2) := by
  decide



/-! Claim C8 -/

/-- C8: merging two indexed geometries concatenates the vertex attribute
buffers (position always; normal and uv whenever both inputs carry them
and the concatenation is non-empty) and appends the second geometry's
indices offset by the first geometry's vertex count. -/
theorem merge_indexed_geometries (geo1 geo2 : BufferGeometry)
    (p1 : List (Int × Int × Int)) (i1 i2 : List Nat)
    (hp : geo1.position = some p1) (h1 : geo1.index = some i1)
    (h2 : geo2.index = some i2) :
    (mergeTwoGeometries geo1 geo2).position
        = some (p1 ++ geo2.position.getD [])
    ∧ (mergeTwoGeometries geo1 geo2).index
        = some (i1 ++ i2.map (fun j => j + p1.length))
    ∧ (∀ n1 n2, geo1.normal = some n1 → geo2.normal = some n2 →
        n1 ++ n2 ≠ [] →
        (mergeTwoGeometries geo1 geo2).normal = some (n1 ++ n2))
    ∧ (∀ u1 u2, geo1.uv = some u1 → geo2.uv = some u2 →
        u1 ++ u2 ≠ [] →
        (mergeTwoGeometries geo1 geo2).uv = some (u1 ++ u2)) := by
  refine ⟨?_, ?_, ?_, ?_⟩
  · simp [mergeTwoGeometries, hp]
  · simp [mergeTwoGeometries, hp, h1, h2]
  · intro n1 n2 hn1 hn2 hne
    have hne2 : (n1 ++ n2).isEmpty = false := by
      cases hE : (n1 ++ n2).isEmpty with
      | false => rfl
      | true => exact absurd (List.isEmpty_iff.mp hE) hne
    simp [mergeTwoGeometries, hn1, hn2, hne2]
  · intro u1 u2 hu1 hu2 hue
    have hue2 : (u1 ++ u2).isEmpty = false := by
      cases hE : (u1 ++ u2).isEmpty with
      | false => rfl
      | true => exact absurd (List.isEmpty_iff.mp hE) hue
    simp [mergeTwoGeometries, hu1, hu2, hue2]

/-- Witness for C8: two single-triangle geometries merge into 6 vertices
with indices `[0, 1, 2, 3, 4, 5]`. -/
theorem merge_indexed_geometries_witness :
    (tri1.position = some [(0, 0, 0), (1, 0, 0), (0, 1, 0)]
      ∧ tri1.index = some [0, 1, 2] ∧ tri2.index = some [0, 1, 2])
    ∧ (mergeTwoGeometries tri1 tri2).index
        = some ([0, 1, 2] ++ [0, 1, 2].map (fun j =>
            j + ([((0 : Int), (0 : Int), (0 : Int)), (1, 0, 0),
              (0, 1, 0)]).length))
    ∧ (mergeTwoGeometries tri1 tri2).index = some [0, 1, 2, 3, 4, 5]
    ∧ (mergeTwoGeometries tri1 tri2).position
        = some [(0, 0, 0), (1, 0, 0), (0, 1, 0), (0, 0, 1), (1, 0, 1),
            (0, 1, 1)] :=
  ⟨⟨rfl, rfl, rfl⟩,
    (merge_indexed_geometries tri1 tri2
      [(0, 0, 0), (1, 0, 0), (0, 1, 0)] [0, 1, 2] [0, 1, 2]
      rfl rfl rfl).2.1,
    by decide, by decide⟩

/-! Claim C9 -/

/-- C9 counterexample: with every pairwise merge failing, a two-instance
group is emitted as a single mesh holding only the first instance's
geometry; the second instance's vertex `(5, 5, 5)` appears nowhere in
the output, so the group is not emitted unmerged. -/
theorem merge_failure_counterexample :
    emitGroup (fun _ _ => true) [meshA, meshB] = [meshA]
    ∧ ((5, 5, 5) : Int × Int × Int) ∉ meshA.geometry.position.getD [] :=
  ⟨by decide, by decide⟩

/-- Folding the caught merge with an always-failing oracle keeps the
accumulator unchanged: each step's `catch` returns its first argument. -/
theorem foldl_caught_failed (meshes : List Mesh) (g : BufferGeometry) :
    meshes.foldl
      (fun merged m => mergeTwoGeometriesCaught (fun _ _ => true) merged
        (translateGeometry m.geometry m.posX m.posY m.posZ)) g = g := by
  induction meshes generalizing g with
  | nil => rfl
  | cons m ms ih =>
    rw [List.foldl_cons]
    rw [show mergeTwoGeometriesCaught (fun _ _ => true) g
      (translateGeometry m.geometry m.posX m.posY m.posZ) = g from rfl]
    exact ih g

/-- C9 amended: a failure inside the pairwise merge is caught there and
returns the first geometry, so `mergeGeometries` still yields a mesh for
every non-empty group (the unmerged fallback of the caller is never
reached through a pairwise failure), and when every pairwise merge fails
the group is emitted as one mesh carrying only the first instance's
translated geometry — later instances are dropped, not emitted
unmerged. -/
theorem merge_failure_amended
    (failed : BufferGeometry → BufferGeometry → Bool) (m : Mesh)
    (rest : List Mesh) (hrest : rest ≠ []) :
    (∃ g, mergeGeometries failed (m :: rest) = some g)
    ∧ emitGroup (fun _ _ => true) (m :: rest)
      = [{ geometry := translateGeometry m.geometry m.posX m.posY m.posZ,
           posX := 0, posY := 0, posZ := 0 }] := by
  constructor
  · cases rest with
    | nil => exact ⟨_, rfl⟩
    | cons r rs => exact ⟨_, rfl⟩
  · cases rest with
    | nil => exact absurd rfl hrest
    | cons r rs =>
      have hmg : mergeGeometries (fun _ _ => true) (m :: r :: rs)
          = some ((r :: rs).foldl
            (fun merged mm => mergeTwoGeometriesCaught (fun _ _ => true)
              merged
              (translateGeometry mm.geometry mm.posX mm.posY mm.posZ))
            (translateGeometry m.geometry m.posX m.posY m.posZ)) := rfl
      rw [foldl_caught_failed] at hmg
      rw [emitGroup, hmg]

/-- Witness for C9 amended on a concrete two-instance group. -/
theorem merge_failure_amended_witness :
    (([meshB] : List Mesh) ≠ [])
    ∧ (∃ g, mergeGeometries (fun _ _ => false) [meshA, meshB] = some g)
    ∧ emitGroup (fun _ _ => true) [meshA, meshB]
      = [{ geometry := translateGeometry meshA.geometry meshA.posX
            meshA.posY meshA.posZ,
           posX := 0, posY := 0, posZ := 0 }] :=
  ⟨by decide,
    (merge_failure_amended (fun _ _ => false) meshA [meshB] (by decide)).1,
    (merge_failure_amended (fun _ _ => false) meshA [meshB] (by decide)).2⟩

/-! Claim C10 -/

/-- C10: when exactly one of the two merged geometries is indexed, the
merged index buffer consists of that geometry's indices alone — kept as
they are when it is the first geometry (and, when valid, pointing only
below the first vertex block), or offset by the first geometry's vertex
count when it is the second (hence pointing only at or above that
offset) — while both position buffers are still concatenated, so the
unindexed geometry's vertices sit in the buffers unreferenced. -/
theorem merge_single_indexed (geo1 geo2 : BufferGeometry)
    (p1 p2 : List (Int × Int × Int))
    (hp1 : geo1.position = some p1) (hp2 : geo2.position = some p2) :
    (∀ i1, geo1.index = some i1 → geo2.index = none →
      (mergeTwoGeometries geo1 geo2).index = some i1
      ∧ ((∀ e ∈ i1, e < p1.length) →
          ∀ e ∈ (mergeTwoGeometries geo1 geo2).index.getD [],
            e < p1.length))
    ∧ (∀ i2, geo1.index = none → geo2.index = some i2 →
      (mergeTwoGeometries geo1 geo2).index
          = some (i2.map (fun j => j + p1.length))
      ∧ ∀ e ∈ (mergeTwoGeometries geo1 geo2).index.getD [],
          p1.length ≤ e)
    ∧ (mergeTwoGeometries geo1 geo2).position = some (p1 ++ p2) := by
  refine ⟨?_, ?_, ?_⟩
  · intro i1 h1 h2
    have hidx : (mergeTwoGeometries geo1 geo2).index = some i1 := by
      simp [mergeTwoGeometries, h1, h2]
    refine ⟨hidx, ?_⟩
    intro hvalid e he
    rw [hidx] at he
    exact hvalid e he
  · intro i2 h1 h2
    have hidx : (mergeTwoGeometries geo1 geo2).index
        = some (i2.map (fun j => j + p1.length)) := by
      simp [mergeTwoGeometries, hp1, h1, h2]
    refine ⟨hidx, ?_⟩
    intro e he
    rw [hidx] at he
    simp only [Option.getD_some, List.mem_map] at he
    obtain ⟨j, _, hj⟩ := he
    omega
  · simp [mergeTwoGeometries, hp1, hp2]

/-- Witness for C10: an indexed triangle merged with an unindexed one, in
both orders. -/
theorem merge_single_indexed_witness :
    (tri1.index = some [0, 1, 2] ∧ tri2plain.index = none)
    ∧ (mergeTwoGeometries tri1 tri2plain).index = some [0, 1, 2]
    ∧ (mergeTwoGeometries tri2plain tri1).index
        = some ([0, 1, 2].map (fun j =>
            j + ([((0 : Int), (0 : Int), (1 : Int)), (1, 0, 1),
              (0, 1, 1)]).length))
    ∧ (mergeTwoGeometries tri2plain tri1).index = some [3, 4, 5] :=
  ⟨⟨rfl, rfl⟩,
    ((merge_single_indexed tri1 tri2plain
      [(0, 0, 0), (1, 0, 0), (0, 1, 0)] [(0, 0, 1), (1, 0, 1), (0, 1, 1)]
      rfl rfl).1 [0, 1, 2] rfl rfl).1,
    ((merge_single_indexed tri2plain tri1
      [(0, 0, 1), (1, 0, 1), (0, 1, 1)] [(0, 0, 0), (1, 0, 0), (0, 1, 0)]
      rfl rfl).2.1 [0, 1, 2] rfl rfl).1,
    by decide⟩




end WebSchematics
